import Mathlib

/-
Verification of the mobile-furniture cart and shipping pipeline.

The definitions below are a shallow embedding of the repository's
TypeScript sources:
  * src/server/src/controllers/cart.controller.ts  (cart aggregate)
  * src/server/src/models/cart.models.ts           (schema validation)
  * src/server/src/utils/distanceUtils.ts          (geocode / haversine / fee)
  * src/SERVICE/shippingUtils.ts                   (client fee table)
  * the 7-tier client fee table variant
  * the zustand cart store (optimistic client mirror)

Money amounts and quantities are modelled as integers, product ids as
naturals, distances as rationals or reals.  Fallible operations return
Except values mirroring the HTTP error responses of the controllers.
-/

namespace Furniture

/-- A cart line item as persisted by the server: a product reference, a
quantity, and the price captured at add time (cart.models.ts). -/
structure CartItem where
  product : Nat
  quantity : Int
  price : Int
deriving DecidableEq, Repr

/-- The cart document: owner is implicit (one cart per owner), items plus
the three derived totals (cart.models.ts). -/
structure Cart where
  items : List CartItem
  subTotal : Int
  shipping : Int
  total : Int
deriving DecidableEq, Repr

/-- FREE_DELIVERY_THRESHOLD from cart.controller.ts. -/
def FREE_DELIVERY_THRESHOLD : Int := 50000

/-- NORMAL_SHIPPING_FEE from cart.controller.ts. -/
def NORMAL_SHIPPING_FEE : Int := 1500

/-- calculateShipping from cart.controller.ts: flat fee below the free
delivery threshold, 0 above it or for a non-positive subtotal. -/
def calculateShipping (subtotal : Int) : Int :=
  if subtotal ≤ 0 then 0
  else if subtotal ≥ FREE_DELIVERY_THRESHOLD then 0
  else NORMAL_SHIPPING_FEE

/-- The record returned by calculateTotals in cart.controller.ts. -/
structure Totals where
  subTotal : Int
  shipping : Int
  total : Int
deriving DecidableEq, Repr

/-- calculateTotals from cart.controller.ts: subtotal is the reduce over
price * quantity, shipping derives from the subtotal, total is their sum. -/
def calculateTotals (items : List CartItem) : Totals :=
  let subTotal := items.foldl (fun sum it => sum + it.price * it.quantity) 0
  let shipping := calculateShipping subTotal
  { subTotal := subTotal, shipping := shipping, total := subTotal + shipping }

/-- The per-item minimum validators of cartItemSchema (cart.models.ts):
quantity at least 1, price non-negative. -/
def validItem (it : CartItem) : Bool :=
  decide (1 ≤ it.quantity) && decide (0 ≤ it.price)

/-- The document-level validators of cartSchema (cart.models.ts): every
item valid and the three totals non-negative. -/
def validCart (c : Cart) : Bool :=
  c.items.all validItem && decide (0 ≤ c.subTotal) &&
    decide (0 ≤ c.shipping) && decide (0 ≤ c.total)

/-- Error outcomes of the cart controllers, mirroring their HTTP failure
responses. -/
inductive CartError where
  | invalidInput
  | productNotFound
  | notFound
  | validationError
  | serverError
deriving DecidableEq, Repr

/-- Mongoose save with schema validation: persists the document when the
schema validators pass, otherwise raises a validation error. -/
def saveCart (c : Cart) : Except CartError Cart :=
  if validCart c then .ok c else .error .validationError

/-- Builds the cart document the controllers assemble before saving: the
item list together with totals freshly recomputed from it. -/
def mkCart (items : List CartItem) : Cart :=
  let t := calculateTotals items
  { items := items, subTotal := t.subTotal, shipping := t.shipping,
    total := t.total }

/-- The merge branch of addToCart: increment the quantity of the first
line whose product matches (items[itemIndex].quantity += qty). -/
def addFirstQuantity : List CartItem → Nat → Int → List CartItem
  | [], _, _ => []
  | it :: rest, pid, qty =>
    if it.product = pid then { it with quantity := it.quantity + qty } :: rest
    else it :: addFirstQuantity rest pid qty

/-- The update branch of updateCart: overwrite the quantity of the first
line whose product matches (item.quantity = Number(quantity)). -/
def setFirstQuantity : List CartItem → Nat → Int → List CartItem
  | [], _, _ => []
  | it :: rest, pid, qty =>
    if it.product = pid then { it with quantity := qty } :: rest
    else it :: setFirstQuantity rest pid qty

/-- findIndex on items.product used by the controllers. -/
def hasProduct (items : List CartItem) (pid : Nat) : Bool :=
  items.any (fun it => it.product == pid)

/-- addToCart from cart.controller.ts.  The catalog function stands for
Product.findById.  Rejects non-positive quantities, then either creates a
fresh one-line cart, merges into an existing line, or appends a new line,
recomputes the totals and saves.  A negative catalog price throws in the
source (new Error) and surfaces as a 500. -/
def addToCart (catalog : Nat → Option Int) (st : Option Cart)
    (productId : Nat) (quantity : Int) : Except CartError Cart :=
  if quantity ≤ 0 then .error .invalidInput
  else
    match catalog productId with
    | none => .error .productNotFound
    | some price =>
      match st with
      | none =>
        if price < 0 then .error .serverError
        else saveCart (mkCart
          [{ product := productId, quantity := quantity, price := price }])
      | some cart =>
        if hasProduct cart.items productId then
          saveCart (mkCart (addFirstQuantity cart.items productId quantity))
        else if price < 0 then .error .serverError
        else saveCart (mkCart (cart.items ++
          [{ product := productId, quantity := quantity, price := price }]))

/-- updateCart from cart.controller.ts: the findOne query matches only a
cart that contains the product, so a missing cart and a missing line both
yield the same 404; otherwise the first matching line's quantity is
overwritten and totals are recomputed and saved. -/
def updateCart (st : Option Cart) (productId : Nat) (quantity : Int) :
    Except CartError Cart :=
  match st with
  | none => .error .notFound
  | some cart =>
    if hasProduct cart.items productId then
      saveCart (mkCart (setFirstQuantity cart.items productId quantity))
    else .error .notFound

/-- removeItem from cart.controller.ts: 404 only when no cart exists for
the owner; otherwise a pull of all lines matching the product (a no-op
when none matches), followed by recomputing totals and saving. -/
def removeItem (st : Option Cart) (productId : Nat) : Except CartError Cart :=
  match st with
  | none => .error .notFound
  | some cart =>
    saveCart (mkCart (cart.items.filter (fun it => !(it.product == productId))))

/-- getItems from cart.controller.ts: responds with a null cart both when
no cart document exists and when the document's item list is empty. -/
def getItems (st : Option Cart) : Option Cart :=
  match st with
  | none => none
  | some cart => if cart.items.isEmpty then none else some cart

/-- A catalog holding a single product at a given price. -/
def singleCatalog (pid : Nat) (price : Int) : Nat → Option Int :=
  fun x => if x = pid then some price else none

/-- Runs a sequence of addToCart calls for one product; each element of
the list is the catalog price visible at that call paired with the
quantity added. -/
def runAdds (pid : Nat) (st : Option Cart) :
    List (Int × Int) → Except CartError (Option Cart)
  | [] => .ok st
  | (price, qty) :: rest =>
    match addToCart (singleCatalog pid price) st pid qty with
    | .ok cart => runAdds pid (some cart) rest
    | .error e => .error e

/-- The totals invariant of the spec: the stored subtotal is the sum of
price * quantity over the stored items, shipping derives from the stored
subtotal, and total is their sum. -/
def totalsConsistent (c : Cart) : Prop :=
  c.subTotal = c.items.foldl (fun sum it => sum + it.price * it.quantity) 0 ∧
  c.shipping = calculateShipping c.subTotal ∧
  c.total = c.subTotal + c.shipping

instance (c : Cart) : Decidable (totalsConsistent c) := by
  unfold totalsConsistent; infer_instance

/-- calculateShippingByDistance from distanceUtils.ts: the server-side
distance-tiered fee table, bands closed on the upper bound.  Stated over
any linear ordered field so it can be run on rationals and composed with
the real-valued distance. -/
def calculateShippingByDistance {α : Type} [LinearOrderedField α]
    (distanceKm : α) : Nat :=
  if distanceKm ≤ 10 then 500
  else if distanceKm ≤ 25 then 800
  else if distanceKm ≤ 50 then 1200
  else if distanceKm ≤ 100 then 1800
  else 2500

namespace ShippingUtils

/-- calculateShipping from src/SERVICE/shippingUtils.ts, the client-side
fee table used by the shipping estimate screen. -/
def calculateShipping {α : Type} [LinearOrderedField α]
    (distanceKm : α) : Nat :=
  if distanceKm ≤ 10 then 500
  else if distanceKm ≤ 25 then 800
  else if distanceKm ≤ 50 then 1200
  else if distanceKm ≤ 100 then 1800
  else 2500

end ShippingUtils

namespace SevenTier

/-- calculateShipping from the 7-tier client variant of the fee table. -/
def calculateShipping {α : Type} [LinearOrderedField α]
    (distanceKm : α) : Nat :=
  if distanceKm ≤ 10 then 100
  else if distanceKm ≤ 30 then 500
  else if distanceKm ≤ 50 then 800
  else if distanceKm ≤ 70 then 1200
  else if distanceKm ≤ 100 then 1800
  else if distanceKm ≤ 200 then 2500
  else 3000

end SevenTier

/-- A latitude/longitude pair (distanceUtils.ts). -/
structure Coordinates where
  latitude : ℝ
  longitude : ℝ

/-- toRad from distanceUtils.ts. -/
noncomputable def toRad (degrees : ℝ) : ℝ :=
  degrees * (Real.pi / 180)

/-- Math.atan2 for finite arguments, as used by the haversine formula. -/
noncomputable def atan2 (y x : ℝ) : ℝ :=
  if 0 < x then Real.arctan (y / x)
  else if x < 0 then
    (if 0 ≤ y then Real.arctan (y / x) + Real.pi
     else Real.arctan (y / x) - Real.pi)
  else if 0 < y then Real.pi / 2
  else if y < 0 then -(Real.pi / 2)
  else 0

/-- The local value a of calculateDistance in distanceUtils.ts:
sin(dLat/2)^2 + cos(lat1) * cos(lat2) * sin(dLon/2)^2, written with the
same repeated-product shape as the source. -/
noncomputable def haversineTerm (coord1 coord2 : Coordinates) : ℝ :=
  Real.sin (toRad (coord2.latitude - coord1.latitude) / 2) *
      Real.sin (toRad (coord2.latitude - coord1.latitude) / 2) +
    Real.cos (toRad coord1.latitude) * Real.cos (toRad coord2.latitude) *
      Real.sin (toRad (coord2.longitude - coord1.longitude) / 2) *
      Real.sin (toRad (coord2.longitude - coord1.longitude) / 2)

/-- calculateDistance from distanceUtils.ts: haversine distance with
Earth radius 6371 km, rounded to 2 decimal places via
Math.round(distance * 100) / 100. -/
noncomputable def calculateDistance (coord1 coord2 : Coordinates) : ℝ :=
  ((round ((6371 * (2 * atan2 (Real.sqrt (haversineTerm coord1 coord2))
      (Real.sqrt (1 - haversineTerm coord1 coord2)))) * 100) : ℤ) : ℝ) / 100

/-- JavaScript truthiness of an optional numeric parameter: undefined and
0 are falsy, every other number is truthy. -/
noncomputable def truthy : Option ℝ → Bool
  | none => false
  | some v => if v = 0 then false else true

/-- getShippingInfo from distanceUtils.ts.  The geo function stands for
geocodeCity (returning none on not-found, timeout or transport failure).
The seller coordinate hint is taken only when both components are truthy
(the source guards with sellerLat && sellerLon); otherwise the seller
city is geocoded.  Any geocode failure makes the whole quote null. -/
noncomputable def getShippingInfo (geo : String → Option Coordinates)
    (sellerCity buyerCity : String) (sellerLat sellerLon : Option ℝ) :
    Option (ℝ × Nat) :=
  let sellerCoords : Option Coordinates :=
    if truthy sellerLat && truthy sellerLon then
      some { latitude := sellerLat.getD 0, longitude := sellerLon.getD 0 }
    else geo sellerCity
  match sellerCoords with
  | none => none
  | some sc =>
    match geo buyerCity with
    | none => none
    | some bc =>
      let distance := calculateDistance sc bc
      some (distance, calculateShippingByDistance distance)

/-- The client-side product projection carried by the cart store. -/
structure ClientProduct where
  id : String
  price : Int
deriving DecidableEq, Repr

/-- A client cart store line: the CartItem type of the zustand store. -/
structure ClientCartItem where
  product : ClientProduct
  quantity : Int
deriving DecidableEq, Repr

/-- The slice of the zustand cart store state touched by addItem. -/
structure ClientCartState where
  items : List ClientCartItem
  error : Option String
deriving DecidableEq, Repr

/-- The optimistic set of addItem in the zustand store: bump the quantity
of the first line whose product id matches, else append a new line. -/
def applyOptimisticAdd : List ClientCartItem → ClientProduct → Int →
    List ClientCartItem
  | [], product, qty => [{ product := product, quantity := qty }]
  | it :: rest, product, qty =>
    if it.product.id = product.id then
      { it with quantity := it.quantity + qty } :: rest
    else it :: applyOptimisticAdd rest product qty

/-- addItem of the zustand cart store: snapshot the previous items, apply
the optimistic update, issue the server call; on success keep the
optimistic items, on failure restore the snapshot and record the error. -/
def clientAddItem (st : ClientCartState) (product : ClientProduct)
    (qty : Int) (serverResult : Except String Unit) : ClientCartState :=
  let prevItems := st.items
  let optimistic : ClientCartState :=
    { st with items := applyOptimisticAdd st.items product qty }
  match serverResult with
  | .ok _ => optimistic
  | .error e => { optimistic with items := prevItems, error := some e }

/-! Helper lemmas shared by the claim theorems. -/

theorem mkCart_totalsConsistent (items : List CartItem) :
    totalsConsistent (mkCart items) :=
  ⟨rfl, rfl, rfl⟩

theorem saveCart_ok {c c' : Cart} (h : saveCart c = .ok c') : c' = c := by
  unfold saveCart at h
  split at h
  · exact (Except.ok.injEq _ _ ▸ h).symm
  · exact Except.noConfusion h

theorem totalsConsistent_of_save {l : List CartItem} {c : Cart}
    (h : saveCart (mkCart l) = .ok c) : totalsConsistent c :=
  saveCart_ok h ▸ mkCart_totalsConsistent l

/-- C1: after every successful cart mutation (addToCart, updateCart,
removeItem) the persisted cart satisfies subTotal = sum of price times
quantity over its items, shipping = calculateShipping subTotal, and
total = subTotal + shipping; the stored totals are never stale with
respect to the stored item list. -/
theorem cart_mutations_keep_totals (catalog : Nat → Option Int)
    (st : Option Cart) (pid : Nat) (qty : Int) (c : Cart) :
    (addToCart catalog st pid qty = .ok c → totalsConsistent c) ∧
    (updateCart st pid qty = .ok c → totalsConsistent c) ∧
    (removeItem st pid = .ok c → totalsConsistent c) := by
  refine ⟨?_, ?_, ?_⟩
  · intro h
    unfold addToCart at h
    split at h
    · exact Except.noConfusion h
    · split at h
      · exact Except.noConfusion h
      · split at h
        · split at h
          · exact Except.noConfusion h
          · exact totalsConsistent_of_save h
        · split at h
          · exact totalsConsistent_of_save h
          · split at h
            · exact Except.noConfusion h
            · exact totalsConsistent_of_save h
  · intro h
    unfold updateCart at h
    split at h
    · exact Except.noConfusion h
    · split at h
      · exact totalsConsistent_of_save h
      · exact Except.noConfusion h
  · intro h
    unfold removeItem at h
    split at h
    · exact Except.noConfusion h
    · exact totalsConsistent_of_save h

/-- Witness for C1: a concrete successful add leaves consistent totals. -/
theorem cart_mutations_keep_totals_witness :
    totalsConsistent (mkCart [{ product := 1, quantity := 2, price := 1000 }]) :=
  (cart_mutations_keep_totals (singleCatalog 1 1000) none 1 2
    (mkCart [{ product := 1, quantity := 2, price := 1000 }])).1 rfl

/-- C3: the canonical distance-tiered fee function is a step function
over bands closed on the upper bound, takes the spec's scenario values at
10, 10.01, 100 and 100.01, and is monotonically non-decreasing in the
distance. -/
theorem shipping_fee_table (d : ℚ) :
    calculateShippingByDistance (10 : ℚ) = 500 ∧
    calculateShippingByDistance (1001 / 100 : ℚ) = 800 ∧
    calculateShippingByDistance (100 : ℚ) = 1800 ∧
    calculateShippingByDistance (10001 / 100 : ℚ) = 2500 ∧
    (d ≤ 10 → calculateShippingByDistance d = 500) ∧
    (10 < d → d ≤ 25 → calculateShippingByDistance d = 800) ∧
    (25 < d → d ≤ 50 → calculateShippingByDistance d = 1200) ∧
    (50 < d → d ≤ 100 → calculateShippingByDistance d = 1800) ∧
    (100 < d → calculateShippingByDistance d = 2500) ∧
    (∀ e : ℚ, d ≤ e →
      calculateShippingByDistance d ≤ calculateShippingByDistance e) := by
  refine ⟨?_, ?_, ?_, ?_, ?_, ?_, ?_, ?_, ?_, ?_⟩
  · norm_num [calculateShippingByDistance]
  · norm_num [calculateShippingByDistance]
  · norm_num [calculateShippingByDistance]
  · norm_num [calculateShippingByDistance]
  · intro h; simp only [calculateShippingByDistance]; rw [if_pos h]
  · intro h1 h2
    simp only [calculateShippingByDistance]
    rw [if_neg (by linarith), if_pos h2]
  · intro h1 h2
    simp only [calculateShippingByDistance]
    rw [if_neg (by linarith), if_neg (by linarith), if_pos h2]
  · intro h1 h2
    simp only [calculateShippingByDistance]
    rw [if_neg (by linarith), if_neg (by linarith), if_neg (by linarith),
      if_pos h2]
  · intro h1
    simp only [calculateShippingByDistance]
    rw [if_neg (by linarith), if_neg (by linarith), if_neg (by linarith),
      if_neg (by linarith)]
  · intro e he
    simp only [calculateShippingByDistance]
    split_ifs
    all_goals try (exfalso; linarith)
    all_goals norm_num

/-- Witness for C3: the band hypotheses hold at 5 km and the fee is 500. -/
theorem shipping_fee_table_witness :
    calculateShippingByDistance (5 : ℚ) = 500 :=
  (shipping_fee_table 5).2.2.2.2.1 (by decide)

/-- C4 counterexample: the server fee table of distanceUtils.ts and the
client fee table of SERVICE/shippingUtils.ts agree on every distance, so
the three tables are not pairwise inconsistent. -/
theorem server_and_service_tables_agree :
    ¬ ∃ d : ℚ,
      calculateShippingByDistance d ≠ ShippingUtils.calculateShipping d :=
  fun h => h.elim (fun _ hd => hd rfl)

/-- C4 amended: the 7-tier client table disagrees with each of the other
two tables (already at 5 km), while the server table and the SERVICE
client table are identical. -/
theorem seven_tier_table_inconsistent :
    (∀ d : ℚ,
      calculateShippingByDistance d = ShippingUtils.calculateShipping d) ∧
    calculateShippingByDistance (5 : ℚ) ≠ SevenTier.calculateShipping (5 : ℚ) ∧
    ShippingUtils.calculateShipping (5 : ℚ) ≠
      SevenTier.calculateShipping (5 : ℚ) :=
  ⟨fun _ => rfl, by decide, by decide⟩

/-- C8: when the server request behind an optimistic addItem fails, the
client store's item list after the failure handler equals exactly the
pre-mutation item list; the mutation never partially applies. -/
theorem optimistic_add_reverts_on_failure (st : ClientCartState)
    (product : ClientProduct) (qty : Int) (e : String) :
    (clientAddItem st product qty (.error e)).items = st.items := rfl

/-- C10: get-cart responds with a null cart both when no cart document
exists and when the stored cart's item list is empty, so the two states
are indistinguishable through the HTTP interface. -/
theorem getItems_empty_indistinguishable (c : Cart) :
    getItems none = none ∧
    (c.items = [] → getItems (some c) = none) ∧
    (c.items = [] → getItems (some c) = getItems none) := by
  refine ⟨rfl, ?_, ?_⟩ <;> intro h <;> simp [getItems, h]

/-- Witness for C10: a concrete emptied cart is reported as null. -/
theorem getItems_empty_indistinguishable_witness :
    getItems (some { items := [], subTotal := 0, shipping := 0, total := 0 }) =
      none :=
  (getItems_empty_indistinguishable
    { items := [], subTotal := 0, shipping := 0, total := 0 }).2.1 rfl

theorem filter_no_match {l : List CartItem} {pid : Nat}
    (h : ∀ it ∈ l, it.product ≠ pid) :
    l.filter (fun it => !(it.product == pid)) = l := by
  induction l with
  | nil => rfl
  | cons a t ih =>
    have ha : (!(a.product == pid)) = true := by
      simp [h a (List.mem_cons_self a t)]
    rw [List.filter_cons, if_pos ha, ih (fun it hit => h it (List.mem_cons_of_mem a hit))]

theorem mkCart_eq_self {c : Cart} (h : totalsConsistent c) :
    mkCart c.items = c := by
  obtain ⟨h1, h2, h3⟩ := h
  cases c with
  | mk items sub ship tot =>
    dsimp only at h1 h2 h3
    subst h1
    subst h2
    subst h3
    rfl

/-- C7: removing a product that is not in an existing cart succeeds and
leaves items, subTotal, shipping and total unchanged; removeItem fails
with NotFound exactly when no cart exists for the owner. -/
theorem removeItem_absent_product (cart : Cart) (pid : Nat) :
    removeItem none pid = .error .notFound ∧
    removeItem (some cart) pid ≠ .error .notFound ∧
    (validCart cart = true → totalsConsistent cart →
      (∀ it ∈ cart.items, it.product ≠ pid) →
      removeItem (some cart) pid = .ok cart) := by
  refine ⟨rfl, ?_, ?_⟩
  · simp only [removeItem]
    unfold saveCart
    split <;> simp
  · intro hv hc hnot
    simp only [removeItem]
    rw [filter_no_match hnot, mkCart_eq_self hc]
    unfold saveCart
    rw [if_pos hv]

/-- Witness for C7: removing product 2 from a cart holding only product 1
returns the cart unchanged. -/
theorem removeItem_absent_product_witness :
    removeItem (some (mkCart [{ product := 1, quantity := 2, price := 1000 }]))
      2 = .ok (mkCart [{ product := 1, quantity := 2, price := 1000 }]) :=
  (removeItem_absent_product
    (mkCart [{ product := 1, quantity := 2, price := 1000 }]) 2).2.2
    rfl (by decide) (by decide)

theorem shipping_nonneg (s : Int) : 0 ≤ calculateShipping s := by
  unfold calculateShipping NORMAL_SHIPPING_FEE
  split_ifs <;> norm_num

theorem validCart_single {pid : Nat} {q p : Int} (hq : 1 ≤ q) (hp : 0 ≤ p) :
    validCart (mkCart [{ product := pid, quantity := q, price := p }]) =
      true := by
  have hpq : (0 : Int) ≤ p * q := mul_nonneg hp (le_trans zero_le_one hq)
  have hs := shipping_nonneg (p * q)
  have ht : (0 : Int) ≤ p * q + calculateShipping (p * q) := add_nonneg hpq hs
  simp [validCart, mkCart, calculateTotals, validItem, hq, hp, hpq, hs, ht]

theorem addToCart_first (pid : Nat) (price qty : Int)
    (hp : 0 ≤ price) (hq : 0 < qty) :
    addToCart (singleCatalog pid price) none pid qty =
      .ok (mkCart [{ product := pid, quantity := qty, price := price }]) := by
  unfold addToCart singleCatalog
  rw [if_neg (not_le.mpr hq), if_pos rfl]
  dsimp only
  rw [if_neg (not_lt.mpr hp)]
  unfold saveCart
  rw [if_pos (validCart_single (by omega) hp)]

theorem addToCart_merge_single (pid : Nat) (price p q qty : Int)
    (hq : 1 ≤ q) (hp : 0 ≤ p) (hqty : 0 < qty) :
    addToCart (singleCatalog pid price)
        (some (mkCart [{ product := pid, quantity := q, price := p }]))
        pid qty =
      .ok (mkCart [{ product := pid, quantity := q + qty, price := p }]) := by
  unfold addToCart singleCatalog
  rw [if_neg (not_le.mpr hqty), if_pos rfl]
  dsimp only
  have hhas :
      hasProduct (mkCart
        [{ product := pid, quantity := q, price := p }]).items pid = true := by
    simp [hasProduct, mkCart, calculateTotals]
  rw [if_pos hhas]
  have hadd : addFirstQuantity
      (mkCart [{ product := pid, quantity := q, price := p }]).items pid qty =
      [{ product := pid, quantity := q + qty, price := p }] := by
    simp [addFirstQuantity, mkCart, calculateTotals]
  rw [hadd]
  unfold saveCart
  rw [if_pos (validCart_single (by omega) hp)]

theorem runAdds_single_loop (pid : Nat) (p : Int) (hp : 0 ≤ p) :
    ∀ (l : List (Int × Int)) (q : Int), 1 ≤ q →
      (∀ pq ∈ l, 0 < pq.2) →
      runAdds pid (some (mkCart
          [{ product := pid, quantity := q, price := p }])) l =
        .ok (some (mkCart
          [{ product := pid, quantity := q + (l.map Prod.snd).sum, price := p }])) := by
  intro l
  induction l with
  | nil => intro q _ _; simp [runAdds]
  | cons hd tl ih =>
    intro q hq hl
    obtain ⟨pr, qt⟩ := hd
    have hqt : 0 < qt := hl (pr, qt) (List.mem_cons_self _ _)
    simp only [runAdds]
    rw [addToCart_merge_single pid pr p q qt hq hp hqt]
    dsimp only
    rw [ih (q + qt) (by omega) (fun pq hpq => hl pq (List.mem_cons_of_mem _ hpq))]
    simp [add_assoc]

/-- C2: a sequence of successful addToCart calls for the same owner and
product with positive quantities yields a cart with exactly one line for
that product, its quantity the sum of all added quantities, its price the
catalog price captured at the first add (later catalog prices are not
re-read on merge), and the cart subtotal equal to that price times the
summed quantity. -/
theorem repeated_adds_single_line (pid : Nat) (p₀ q₀ : Int)
    (rest : List (Int × Int)) (hp : 0 ≤ p₀) (hq : 0 < q₀)
    (hrest : ∀ pq ∈ rest, 0 < pq.2) :
    ∃ c : Cart,
      runAdds pid none ((p₀, q₀) :: rest) = .ok (some c) ∧
      c.items =
        [{ product := pid, quantity := q₀ + (rest.map Prod.snd).sum, price := p₀ }] ∧
      c.subTotal = p₀ * (q₀ + (rest.map Prod.snd).sum) := by
  refine ⟨mkCart
    [{ product := pid, quantity := q₀ + (rest.map Prod.snd).sum, price := p₀ }],
    ?_, rfl, ?_⟩
  · simp only [runAdds]
    rw [addToCart_first pid p₀ q₀ hp hq]
    exact runAdds_single_loop pid p₀ hp rest q₀ (by omega) hrest
  · simp [mkCart, calculateTotals]

/-- Witness for C2: the spec scenario, add quantity 2 then 3 of a product
priced 1000, gives one line of quantity 5 and subtotal 5000. -/
theorem repeated_adds_single_line_witness :
    ∃ c : Cart,
      runAdds 1 none [((1000 : Int), (2 : Int)), (1000, 3)] = .ok (some c) ∧
      c.items = [{ product := 1, quantity := 5, price := 1000 }] ∧
      c.subTotal = 5000 := by
  have h := repeated_adds_single_line 1 1000 2 [(1000, 3)]
    (by decide) (by decide) (by decide)
  simpa using h

theorem sin_sq_sub_swap (x y : ℝ) :
    Real.sin (toRad (x - y) / 2) * Real.sin (toRad (x - y) / 2) =
      Real.sin (toRad (y - x) / 2) * Real.sin (toRad (y - x) / 2) := by
  have h : toRad (y - x) / 2 = -(toRad (x - y) / 2) := by
    unfold toRad; ring
  rw [h, Real.sin_neg]
  ring

theorem haversineTerm_symm (a b : Coordinates) :
    haversineTerm a b = haversineTerm b a := by
  unfold haversineTerm
  rw [sin_sq_sub_swap b.latitude a.latitude]
  have hlon := sin_sq_sub_swap b.longitude a.longitude
  linear_combination
    (Real.cos (toRad a.latitude) * Real.cos (toRad b.latitude)) * hlon

theorem haversineTerm_self (a : Coordinates) : haversineTerm a a = 0 := by
  unfold haversineTerm toRad
  simp

/-- C5: calculateDistance is symmetric, zero on the diagonal, and its
result is an integer number of hundredths (rounded to 2 decimals). -/
theorem calculateDistance_symm_zero_rounded (a b : Coordinates) :
    calculateDistance a b = calculateDistance b a ∧
    calculateDistance a a = 0 ∧
    ∃ k : ℤ, calculateDistance a b = (k : ℝ) / 100 := by
  refine ⟨?_, ?_, ⟨_, rfl⟩⟩
  · unfold calculateDistance
    rw [haversineTerm_symm a b]
  · unfold calculateDistance
    rw [haversineTerm_self a]
    have h2 : atan2 (Real.sqrt 0) (Real.sqrt (1 - 0)) = 0 := by
      unfold atan2
      rw [if_pos (by rw [sub_zero, Real.sqrt_one]; norm_num)]
      rw [Real.sqrt_zero, sub_zero, Real.sqrt_one, zero_div, Real.arctan_zero]
    rw [h2]
    norm_num

/-- C6: when the buyer city geocode yields not-found, or the seller hint
is not taken and the seller city geocode yields not-found, getShippingInfo
returns null; no partial or default fee is synthesized. -/
theorem geocode_failure_no_quote (geo : String → Option Coordinates)
    (sellerCity buyerCity : String) (sellerLat sellerLon : Option ℝ) :
    (geo buyerCity = none →
      getShippingInfo geo sellerCity buyerCity sellerLat sellerLon = none) ∧
    ((truthy sellerLat && truthy sellerLon) = false →
      geo sellerCity = none →
      getShippingInfo geo sellerCity buyerCity sellerLat sellerLon = none) := by
  constructor
  · intro hb
    unfold getShippingInfo
    cases h : (truthy sellerLat && truthy sellerLon) with
    | false => cases hs : geo sellerCity <;> simp [h, hs, hb]
    | true => simp [h, hb]
  · intro hcond hs
    unfold getShippingInfo
    simp [hcond, hs]

/-- Witness for C6: with a geocoder that resolves nothing, the quote for
any pair of cities is null. -/
theorem geocode_failure_no_quote_witness :
    getShippingInfo (fun _ => none) "Nairobi" "Kisumu" none none = none :=
  (geocode_failure_no_quote (fun _ => none) "Nairobi" "Kisumu" none none).2
    rfl rfl

/-- C9 counterexample: a supplied seller hint with latitude 0 is falsy,
so getShippingInfo ignores the hint and geocodes the seller city: with a
geocoder that knows the buyer city but not the seller city the quote is
null, although the hint coordinates were supplied. -/
theorem hint_with_zero_coordinate_is_geocoded :
    getShippingInfo
        (fun c => if c = "b" then some { latitude := -1, longitude := 36 }
          else none)
        "a" "b" (some 0) (some 36) = none ∧
    (fun c => if c = "b" then some { latitude := -1, longitude := 36 }
      else none) "b" ≠ (none : Option Coordinates) := by
  constructor
  · have hab : ("a" : String) ≠ "b" := by decide
    unfold getShippingInfo
    simp [truthy, hab]
  · simp

/-- C9 amended: when a seller hint with both coordinates nonzero is
supplied, the seller city is never geocoded: the quote depends only on
the buyer geocode and uses the hint directly as the seller coordinates;
a hint containing a zero coordinate is ignored and the seller city is
geocoded instead. -/
theorem hint_nonzero_skips_seller_geocode (geo : String → Option Coordinates)
    (sellerCity buyerCity : String) (la lo : ℝ)
    (hla : la ≠ 0) (hlo : lo ≠ 0) :
    getShippingInfo geo sellerCity buyerCity (some la) (some lo) =
      match geo buyerCity with
      | none => none
      | some bc =>
        some (calculateDistance { latitude := la, longitude := lo } bc,
          calculateShippingByDistance
            (calculateDistance { latitude := la, longitude := lo } bc)) := by
  unfold getShippingInfo
  have h1 : truthy (some la) = true := by simp [truthy, hla]
  have h2 : truthy (some lo) = true := by simp [truthy, hlo]
  simp only [h1, h2, Bool.and_self, if_true]
  cases hb : geo buyerCity <;> simp [hb, Option.getD]

/-- Witness for C9 amended: with a nonzero hint and a geocoder resolving
nothing, the quote is null exactly because only the buyer geocode is
consulted. -/
theorem hint_nonzero_skips_seller_geocode_witness :
    getShippingInfo (fun _ => none) "a" "b" (some 1) (some 1) = none :=
  hint_nonzero_skips_seller_geocode (fun _ => none) "a" "b" 1 1
    one_ne_zero one_ne_zero

end Furniture
